import Mathlib

/-!
Verification development for the AzenFlow website (japan-azenflow).

The development shallowly embeds the two Netlify serverless proxies
(`netlify/functions/chatbot-proxy.js`, `netlify/functions/contact-form-proxy.js`)
and the chatbot widget's client-side logic (rate limiting, history slicing
and the retrying `callAI` request loop).

Modelling conventions, shared by every definition below:
* JSON values produced by `JSON.parse` are the inductive `JVal`; JavaScript
  numbers are modelled as integers (`Int`), which covers every value the
  embedded code manipulates (millisecond timestamps, counters, HTTP statuses);
  `NaN` does not arise in any embedded computation.
* `undefined` (a missing object property) is `Option.none`; JavaScript
  truthiness is `jsTruthy` / `optTruthy`.
* Wall-clock time (`Date.now()`) is an explicit `now : Int` parameter;
  mutable module-level state (the proxies' rate-limit `Map`s, the widget's
  `localStorage` list) is passed and returned explicitly.
* Strings are Lean `String`s: `.length` becomes `String.length`, and
  `.trim()`, `.toLowerCase()` and `.substring(0, n)` become the
  character-list implementations `jsTrim`, `jsToLower` and `jsTake` below
  (structurally recursive, so concrete runs reduce inside the kernel).
  The embedded checks only compare lengths of plain (BMP, non-surrogate)
  text, where the Lean and JavaScript notions agree.
* Property access on `null`/`undefined`, which throws a `TypeError` in
  JavaScript, is modelled as `undefined` by the total `getField`; no theorem
  below evaluates the embedding on an input that hits that case.
-/

/-- A JSON value, as returned by `JSON.parse`. -/
inductive JVal where
  | jnull
  | jbool (b : Bool)
  | jnum (n : Int)
  | jstr (s : String)
  | jarr (elems : List JVal)
  | jobj (fields : List (String × JVal))

/-- JavaScript truthiness of a value (`!v` is its negation). -/
def jsTruthy : JVal → Bool
  | .jnull => false
  | .jbool b => b
  | .jnum n => n != 0
  | .jstr s => s != ""
  | .jarr _ => true
  | .jobj _ => true

/-- `typeof v === 'object'`: true for objects, arrays and `null`. -/
def jsTypeofObject : JVal → Bool
  | .jnull => true
  | .jarr _ => true
  | .jobj _ => true
  | _ => false

/-- Property access `v.k`: the first binding of the key in an object,
`undefined` (`none`) otherwise.  (Field lists produced by `JSON.parse` are
duplicate-free — the parser keeps one binding per key — so first-binding
lookup agrees with JavaScript object access on every reachable value.) -/
def getField : JVal → String → Option JVal
  | .jobj fields, k => (fields.find? (fun p => p.1 == k)).map (fun p => p.2)
  | _, _ => none

/-- Truthiness of a possibly-`undefined` value (`undefined` is falsy). -/
def optTruthy : Option JVal → Bool
  | none => false
  | some v => jsTruthy v

/-- `typeof v === 'string'` for a possibly-`undefined` value. -/
def optIsString : Option JVal → Bool
  | some (.jstr _) => true
  | _ => false

/-- Whether a possibly-`undefined` value is exactly the string `s`
(JavaScript `===` / `Array.prototype.includes` comparison). -/
def isJStr (v : Option JVal) (s : String) : Bool :=
  match v with
  | some (.jstr t) => t == s
  | _ => false

/-- The string content of a value known to be a string (`""` otherwise;
only applied after a `typeof === 'string'` check has succeeded). -/
def strOf : Option JVal → String
  | some (.jstr s) => s
  | _ => ""

/-- `s.trim()`: strip leading and trailing whitespace (JavaScript trims
Unicode whitespace and line terminators; `Char.isWhitespace` covers the
characters the embedded data can contain). -/
def jsTrim (s : String) : String :=
  String.mk (((s.data.dropWhile Char.isWhitespace).reverse.dropWhile
    Char.isWhitespace).reverse)

/-- `s.substring(0, n)`: the first `n` characters. -/
def jsTake (s : String) (n : Nat) : String := String.mk (s.data.take n)

/-- `s.toLowerCase()` (ASCII-and-basic-plane lowering, which covers the
embedded data). -/
def jsToLower (s : String) : String := String.mk (s.data.map Char.toLower)

/-- `a || b`: `a` when truthy, otherwise `b` (for a possibly-`undefined` `a`). -/
def jsOr (v : Option JVal) (dflt : JVal) : JVal :=
  match v with
  | some x => if jsTruthy x then x else dflt
  | none => dflt

/-- `v.trim()`: succeeds on strings, throws a `TypeError` (modelled as
`Except.error ()`) on any other value. -/
def jsTrimString : JVal → Except Unit String
  | .jstr s => .ok (jsTrim s)
  | _ => .error ()

/-- `Math.ceil(a / b)` for integer `a` and positive integer `b`. -/
def jsCeilDiv (a b : Int) : Int := -((-a).ediv b)

/-- `Math.min(...l)` over a nonempty integer list (`0` for `[]`, unused). -/
def listMin : List Int → Int
  | [] => 0
  | x :: xs => xs.foldl min x

/-! ## Chatbot proxy (`netlify/functions/chatbot-proxy.js`) -/

/-- One entry of the chatbot proxy's in-memory rate-limit `Map`. -/
structure RLEntry where
  count : Nat
  timestamp : Int
deriving Repr, DecidableEq

/-- The chatbot proxy's `rateLimitStore`: a key-ordered association list
standing for the JavaScript `Map` from IP to entry. -/
abbrev RLStore := List (String × RLEntry)

/-- `rateLimitStore.get(ip)` (first binding of the key). -/
def storeLookup : RLStore → String → Option RLEntry
  | [], _ => none
  | (k, e) :: rest, ip => if k = ip then some e else storeLookup rest ip

/-- `rateLimitStore.set(ip, e)`: replace the existing binding in place,
or append a new one. -/
def storeSet : RLStore → String → RLEntry → RLStore
  | [], ip, e => [(ip, e)]
  | (k, e0) :: rest, ip, e =>
      if k = ip then (ip, e) :: rest else (k, e0) :: storeSet rest ip e

/-- `cleanupRateLimitStore()`: delete every entry whose `timestamp` is
strictly older than one minute before `now`. -/
def cleanupRateLimitStore (now : Int) (store : RLStore) : RLStore :=
  store.filter (fun p => !(p.2.timestamp < now - 60000))

/-- `CONFIG.RATE_LIMIT_PER_MINUTE` (default `'10'`). -/
def RATE_LIMIT_PER_MINUTE : Nat := 10

/-- `checkRateLimit(ip)` of the chatbot proxy: returns the admit decision
and the store after the call (the JavaScript version mutates the module
`Map` in place). -/
def chatCheckRateLimit (now : Int) (ip : String) (store0 : RLStore) :
    Bool × RLStore :=
  let store := cleanupRateLimitStore now store0
  match storeLookup store ip with
  | none => (true, storeSet store ip ⟨1, now⟩)
  | some data =>
      if data.timestamp < now - 60000 then
        (true, storeSet store ip ⟨1, now⟩)
      else if data.count ≥ RATE_LIMIT_PER_MINUTE then
        (false, store)
      else
        (true, storeSet store ip ⟨data.count + 1, now⟩)

/-- `CONFIG.MAX_MESSAGE_LENGTH`. -/
def MAX_MESSAGE_LENGTH : Nat := 500

/-- `CONFIG.MAX_HISTORY_LENGTH` (server side). -/
def MAX_HISTORY_LENGTH : Nat := 5

/-- One sanitized history entry (`{role, content}`). -/
structure HistEntry where
  role : String
  content : String
deriving Repr, DecidableEq

/-- The sanitized data returned by a successful `validateInput`. -/
structure ChatData where
  message : String
  language : String
  sessionId : String
  history : List HistEntry
deriving Repr, DecidableEq

/-- Result of `validateInput`: `{valid:false, error}` or `{valid:true, data}`. -/
inductive ValResult where
  | invalid (error : String)
  | ok (data : ChatData)
deriving Repr, DecidableEq

/-- The history-item shape test of `validateInput`:
`!item.role || !item.content || typeof item.role !== 'string' ||
typeof item.content !== 'string'` (negated). -/
def historyItemOk (item : JVal) : Bool :=
  optTruthy (getField item "role") && optTruthy (getField item "content") &&
  optIsString (getField item "role") && optIsString (getField item "content")

/-- The `for (const item of history)` validation loop of `validateInput`,
returning the first error, if any. -/
def validateHistory : List JVal → Option String
  | [] => none
  | item :: rest =>
      if !historyItemOk item then
        some "Invalid history format"
      else if !(isJStr (getField item "role") "user" ||
                isJStr (getField item "role") "assistant") then
        some "History role must be \"user\" or \"assistant\""
      else validateHistory rest

/-- A validated history item reduced to its `role`/`content` fields (both are
known to be strings once `validateHistory` has succeeded). -/
def extractHistEntry (item : JVal) : HistEntry :=
  ⟨strOf (getField item "role"), strOf (getField item "content")⟩

/-- `validateInput(body)` of the chatbot proxy, following the source's check
order: required `message`, `language` ∈ {ja, en}, required `sessionId`, raw
`message.length` cap, trimmed-nonempty check, then the history slice/loop. -/
def validateInput (body : JVal) : ValResult :=
  if !(jsTruthy body && jsTypeofObject body) then
    .invalid "Invalid request format"
  else match getField body "message" with
  | some (.jstr m) =>
      if m = "" then .invalid "Message is required and must be a string"
      else if !(isJStr (getField body "language") "ja" ||
                isJStr (getField body "language") "en") then
        .invalid "Language must be \"ja\" or \"en\""
      else match getField body "sessionId" with
      | some (.jstr sid) =>
          if sid = "" then .invalid "Session ID is required"
          else if m.length > MAX_MESSAGE_LENGTH then
            .invalid "Message too long (max 500 characters)"
          else if (jsTrim m).length = 0 then
            .invalid "Message cannot be empty"
          else match getField body "history" with
          | some (.jarr items) =>
              let sliced := items.drop (items.length - MAX_HISTORY_LENGTH)
              match validateHistory sliced with
              | some err => .invalid err
              | none =>
                  .ok ⟨jsTrim m,
                       if isJStr (getField body "language") "ja" then "ja" else "en",
                       sid, sliced.map extractHistEntry⟩
          | _ =>
              .ok ⟨jsTrim m,
                   if isJStr (getField body "language") "ja" then "ja" else "en",
                   sid, []⟩
      | _ => .invalid "Session ID is required"
  | _ => .invalid "Message is required and must be a string"

/-- Observable outcome of the chatbot proxy handler (the webhook call that a
`forward` outcome then performs is outside the model). -/
inductive ChatResp where
  | options200
  | methodNotAllowed
  | rateLimited
  | invalidJson
  | validationError (msg : String)
  | forward (data : ChatData)
deriving Repr, DecidableEq

/-- `exports.handler` of the chatbot proxy.  `parsedBody` is the result of
`JSON.parse(event.body || '{}')`: `none` when parsing threw.  Mirrors the
source's order: method check, rate limit, JSON parse, validation. -/
def chatHandler (now : Int) (method ip : String) (parsedBody : Option JVal)
    (store : RLStore) : ChatResp × RLStore :=
  if method = "OPTIONS" then (.options200, store)
  else if method ≠ "POST" then (.methodNotAllowed, store)
  else
    let checked := chatCheckRateLimit now ip store
    if !checked.1 then (.rateLimited, checked.2)
    else match parsedBody with
    | none => (.invalidJson, checked.2)
    | some body =>
        match validateInput body with
        | .invalid e => (.validationError e, checked.2)
        | .ok data => (.forward data, checked.2)

/-! ## Contact-form proxy (`netlify/functions/contact-form-proxy.js`) -/

/-- `CONFIG.RATE_LIMIT_WINDOW` (1 hour, in ms). -/
def CONTACT_RATE_LIMIT_WINDOW : Int := 3600000

/-- `CONFIG.MAX_REQUESTS_PER_HOUR`. -/
def MAX_REQUESTS_PER_HOUR : Nat := 10

/-- The contact proxy's `rateLimitStore`: IP → list of request timestamps. -/
abbrev ContactStore := List (String × List Int)

/-- `rateLimitStore.get(ip) || []`. -/
def contactStoreGet : ContactStore → String → List Int
  | [], _ => []
  | (k, ts) :: rest, ip => if k = ip then ts else contactStoreGet rest ip

/-- `rateLimitStore.set(ip, ts)`. -/
def contactStoreSet : ContactStore → String → List Int → ContactStore
  | [], ip, ts => [(ip, ts)]
  | (k, ts0) :: rest, ip, ts =>
      if k = ip then (ip, ts) :: rest else (k, ts0) :: contactStoreSet rest ip ts

/-- Result object of the contact proxy's `checkRateLimit`. -/
structure ContactRLResult where
  allowed : Bool
  retryAfter : Option Int
deriving Repr, DecidableEq

/-- `checkRateLimit(ip)` of the contact proxy: filter this IP's timestamps to
the last hour; deny (leaving the store untouched) when at least
`MAX_REQUESTS_PER_HOUR` remain, else record `now` and admit. -/
def contactCheckRateLimit (now : Int) (ip : String) (store : ContactStore) :
    ContactRLResult × ContactStore :=
  let userRequests := contactStoreGet store ip
  let recentRequests := userRequests.filter
    (fun t => now - t < CONTACT_RATE_LIMIT_WINDOW)
  if recentRequests.length ≥ MAX_REQUESTS_PER_HOUR then
    let oldestRequest := listMin recentRequests
    (⟨false,
      some (jsCeilDiv (oldestRequest + CONTACT_RATE_LIMIT_WINDOW - now) 1000)⟩,
     store)
  else
    (⟨true, none⟩, contactStoreSet store ip (recentRequests ++ [now]))

/-- The `normalizedData` object of `validateAndSanitize` (old → new field
names, with `''` defaults). -/
structure NormContact where
  name : JVal
  email : JVal
  company : JVal
  phone : JVal
  service : JVal
  message : JVal
  consent : Option JVal
  language : JVal

/-- Lines 55–64 of the contact proxy: build `normalizedData` from the raw
request body. -/
def normalizeContact (data : JVal) : NormContact where
  name := jsOr (getField data "name") (jsOr (getField data "firstname") (.jstr ""))
  email := jsOr (getField data "email") (.jstr "")
  company := jsOr (getField data "company") (.jstr "")
  phone := jsOr (getField data "phone") (.jstr "")
  service := jsOr (getField data "service") (jsOr (getField data "projectType") (.jstr ""))
  message := jsOr (getField data "message") (.jstr "")
  consent := getField data "consent"
  language := jsOr (getField data "language") (.jstr "ja")

/-- The required-field test
`!v || typeof v !== 'string' || v.trim() === ''` of `validateAndSanitize`. -/
def missingOrInvalid (v : JVal) : Bool :=
  match v with
  | .jstr s => s == "" || jsTrim s == ""
  | _ => true

/-- Split a character list at every `'@'` (helper for `emailTest`). -/
def splitOnAtSign : List Char → List (List Char)
  | [] => [[]]
  | c :: rest =>
      if c = '@' then [] :: splitOnAtSign rest
      else match splitOnAtSign rest with
        | [] => [[c]]
        | g :: gs => (c :: g) :: gs

/-- `emailRegex.test(s)` for `/^[^\s@]+@[^\s@]+\.[^\s@]+$/`: exactly one `@`,
a nonempty local part, no whitespace anywhere, and a `.` somewhere strictly
inside the domain part (`[^\s@]` admits `'.'`, so only the two ends of the
domain must avoid being the mandatory dot). -/
def emailTest (s : String) : Bool :=
  match splitOnAtSign s.data with
  | [a, rest] =>
      !a.isEmpty && s.data.all (fun c => !c.isWhitespace) &&
      ((rest.drop 1).dropLast.contains '.')
  | _ => false

/-- String coercion applied by `emailRegex.test` to a non-string argument
(primitives only; the embedded theorems only call it on strings). -/
def jsToStr : JVal → String
  | .jstr s => s
  | .jnum n => toString n
  | .jbool true => "true"
  | .jbool false => "false"
  | .jnull => "null"
  | .jarr _ => ""
  | .jobj _ => "[object Object]"

/-- The `.length > 2000` test of `validateAndSanitize` (`.length` is defined
for strings and arrays; `undefined > 2000` is false for anything else). -/
def messageTooLong (v : JVal) : Bool :=
  match v with
  | .jstr s => s.length > 2000
  | .jarr xs => xs.length > 2000
  | _ => false

/-- The `errors` array accumulated by `validateAndSanitize` (lines 52–87):
required-field errors for name/email/message, the email-format check, and
the message-length cap, in source order. -/
def contactValidationErrors (data : JVal) : List String :=
  let n := normalizeContact data
  (if missingOrInvalid n.name then ["Missing or invalid field: name"] else []) ++
  (if missingOrInvalid n.email then ["Missing or invalid field: email"] else []) ++
  (if missingOrInvalid n.message then ["Missing or invalid field: message"] else []) ++
  (if jsTruthy n.email && !emailTest (jsToStr n.email) then ["Invalid email format"] else []) ++
  (if jsTruthy n.message && messageTooLong n.message then ["Message too long (max 2000 characters)"] else [])

/-- `normalizedData.consent === true || normalizedData.consent === 'true'`. -/
def jsConsent : Option JVal → Bool
  | some (.jbool true) => true
  | some (.jstr s) => s == "true"
  | _ => false

/-- The `source` whitelist of `validateAndSanitize`:
`data.source && allowedSources.includes(data.source) ? data.source :
'website-contact-form'`. -/
def contactSource (data : JVal) : String :=
  match getField data "source" with
  | some (.jstr s) =>
      if s = "website-contact-form" || s = "pdf-download" then s
      else "website-contact-form"
  | _ => "website-contact-form"

/-- The sanitized record built by a successful `validateAndSanitize`
(the wall-clock `timestamp` field is outside the model). -/
structure SanitizedContact where
  name : String
  email : String
  company : String
  phone : String
  service : String
  message : String
  consent : Bool
  language : JVal
  source : String

/-- Result of `validateAndSanitize`: `{valid:false, errors}` or
`{valid:true, data}`. -/
inductive ContactValResult where
  | invalid (errors : List String)
  | ok (data : SanitizedContact)

/-- The optional-field ternary of the sanitize step:
`v ? v.trim().substring(0, n) : ''` (throws on a truthy non-string `v`). -/
def optionalSanitize (v : JVal) (n : Nat) : Except Unit String :=
  if jsTruthy v then (jsTrimString v).map (fun s => jsTake s n) else .ok ""

/-- `validateAndSanitize(data)`: validation, then sanitization.  The
sanitization step calls `.trim()` directly on `name`, `email`, `message`
and on any truthy `company`/`phone`/`service`, so a truthy non-string in
those positions throws a `TypeError` (`Except.error ()`), which the
handler's `catch` turns into a 500 response. -/
def validateAndSanitize (data : JVal) : Except Unit ContactValResult :=
  let n := normalizeContact data
  let errors := contactValidationErrors data
  if errors ≠ [] then .ok (.invalid errors)
  else do
    let name ← jsTrimString n.name
    let email ← jsTrimString n.email
    let company ← optionalSanitize n.company 200
    let phone ← optionalSanitize n.phone 50
    let service ← optionalSanitize n.service 100
    let message ← jsTrimString n.message
    .ok (.ok
      { name := jsTake name 100
        email := jsTake (jsToLower email) 200
        company := company
        phone := phone
        service := service
        message := jsTake message 2000
        consent := jsConsent n.consent
        language := n.language
        source := contactSource data })

/-- Observable outcome of the contact proxy handler (`forward` stands for the
webhook call; the upstream response mapping is outside the model). -/
inductive ContactResp where
  | options200
  | methodNotAllowed
  | rateLimited (retryAfter : Option Int)
  | invalidJson
  | validationFailed (errors : List String)
  | configError
  | forward (d : SanitizedContact)
  | serverError

/-- `exports.handler` of the contact proxy.  `parsedBody` is the result of
`JSON.parse(event.body)` (`none` when parsing threw); `configOk` is whether
both webhook environment variables are set.  Mirrors the source's order:
method check, rate limit, JSON parse, validation, config check. -/
def contactHandler (now : Int) (method ip : String) (parsedBody : Option JVal)
    (configOk : Bool) (store : ContactStore) : ContactResp × ContactStore :=
  if method = "OPTIONS" then (.options200, store)
  else if method ≠ "POST" then (.methodNotAllowed, store)
  else
    let checked := contactCheckRateLimit now ip store
    if !checked.1.allowed then (.rateLimited checked.1.retryAfter, checked.2)
    else match parsedBody with
    | none => (.invalidJson, checked.2)
    | some data =>
        match validateAndSanitize data with
        | .error () => (.serverError, checked.2)
        | .ok (.invalid errs) => (.validationFailed errs, checked.2)
        | .ok (.ok d) =>
            if !configOk then (.configError, checked.2) else (.forward d, checked.2)

/-! ## Chatbot widget (client script) -/

/-- One entry of the widget's `RATE_LIMITS` table together with its
localized denial messages from the `checks` array. -/
structure RateTier where
  max : Nat
  window : Int
  msgJa : String
  msgEn : String
deriving Repr, DecidableEq

/-- `RATE_LIMITS.PER_MINUTE` with its `checks` messages. -/
def PER_MINUTE : RateTier :=
  ⟨8, 60000,
   "メッセージの送信が早すぎます。1分後に再試行してください。",
   "You are sending messages too quickly. Please wait 1 minute."⟩

/-- `RATE_LIMITS.PER_10_MINUTES` with its `checks` messages. -/
def PER_10_MINUTES : RateTier :=
  ⟨20, 600000,
   "10分間のメッセージ制限に達しました。しばらくお待ちください。",
   "You have reached the 10-minute message limit. Please wait a moment."⟩

/-- `RATE_LIMITS.PER_DAY` with its `checks` messages. -/
def PER_DAY : RateTier :=
  ⟨50, 86400000,
   "本日のメッセージ制限に達しました。明日また試してください。",
   "You have reached the daily message limit. Please try again tomorrow."⟩

/-- `getCurrentLanguage()` (the widget is Japanese-only). -/
def getCurrentLanguage : String := "ja"

/-- `check.messages[lang]`. -/
def tierMessage (t : RateTier) (lang : String) : String :=
  if lang = "ja" then t.msgJa else t.msgEn

/-- Result object of the widget's `checkRateLimit`. -/
structure ClientRLResult where
  allowed : Bool
  reason : Option String
  retryAfter : Option Int
deriving Repr, DecidableEq

/-- The `for (const check of checks)` loop of the widget's `checkRateLimit`:
the first tier whose in-window count reaches its max yields the denial
message and `retryAfter = ceil((oldest + window - now) / 1000)`. -/
def runTierChecks (now : Int) (messageTimes : List Int) :
    List RateTier → Option (String × Int)
  | [] => none
  | t :: rest =>
      let recentMessages := messageTimes.filter (fun x => now - x < t.window)
      if recentMessages.length ≥ t.max then
        some (tierMessage t getCurrentLanguage,
              jsCeilDiv (listMin recentMessages + t.window - now) 1000)
      else runTierChecks now messageTimes rest

/-- The widget's `checkRateLimit()`: prune the stored timestamps to the
24-hour window in memory, run the tiers strictest-first, and persist the
pruned list plus `now` only when every tier admits (a denial returns before
`localStorage.setItem`, leaving the persisted list unchanged).  The second
component is the persisted (`localStorage`) list after the call. -/
def clientCheckRateLimit (now : Int) (stored : List Int) :
    ClientRLResult × List Int :=
  let messageTimes := stored.filter (fun x => now - x < PER_DAY.window)
  match runTierChecks now messageTimes [PER_MINUTE, PER_10_MINUTES, PER_DAY] with
  | some (reason, retryAfter) => (⟨false, some reason, some retryAfter⟩, stored)
  | none => (⟨true, none, none⟩, messageTimes ++ [now])

/-- One turn of the widget's `messageHistory` (as pushed by `addMessage`). -/
structure ChatTurn where
  text : String
  isUser : Bool
deriving Repr, DecidableEq

/-- `l.slice(-n)` for `n > 0`: the suffix of the last `min n l.length`
elements. -/
def jsSliceLast (l : List α) (n : Nat) : List α := l.drop (l.length - n)

/-- The role/content mapping of `getHistoryForAPI`. -/
def turnToWire (m : ChatTurn) : HistEntry :=
  ⟨if m.isUser then "user" else "assistant", m.text⟩

/-- `getHistoryForAPI()`: the last `CONFIG.MAX_HISTORY_LENGTH` (5) turns,
mapped to wire `{role, content}` objects. -/
def getHistoryForAPI (messageHistory : List ChatTurn) : List HistEntry :=
  (jsSliceLast messageHistory MAX_HISTORY_LENGTH).map turnToWire

/-- `storeConversation()`: the persisted copy is the last 50 turns. -/
def storeConversation (messageHistory : List ChatTurn) : List ChatTurn :=
  jsSliceLast messageHistory 50

/-- `CONFIG.RETRY_ATTEMPTS`. -/
def RETRY_ATTEMPTS : Nat := 2

/-- Outcome of one `fetch` attempt inside `callAI`: an HTTP response with its
status and (for 2xx) whether/which string `data.response` field the JSON body
carried, an `AbortError` from the 30s cancellation timer, or a network-level
`TypeError`. -/
inductive FetchOutcome where
  | status (code : Nat) (respField : Option String)
  | abortError
  | fetchTypeError
deriving Repr, DecidableEq

/-- The error classes `callAI` throws. -/
inductive AIError where
  | RATE_LIMIT
  | TIMEOUT
  | SERVER_ERROR
  | API_ERROR
  | NETWORK_ERROR
  | INVALID_RESPONSE
deriving Repr, DecidableEq

/-- The classification a single `callAI` attempt gives its `fetch` outcome:
2xx with a string `data.response` succeeds; 2xx without one throws
`INVALID_RESPONSE` (a malformed 2xx JSON body likewise surfaces as a
non-retried throw); otherwise 429 → `RATE_LIMIT`, 504 → `TIMEOUT`,
other ≥ 500 → `SERVER_ERROR`, other non-2xx → `API_ERROR`;
`AbortError` → `TIMEOUT`; fetch `TypeError` → `NETWORK_ERROR`. -/
def classify : FetchOutcome → Except AIError String
  | .abortError => .error .TIMEOUT
  | .fetchTypeError => .error .NETWORK_ERROR
  | .status code respField =>
      if 200 ≤ code ∧ code < 300 then
        match respField with
        | some s => .ok s
        | none => .error .INVALID_RESPONSE
      else if code = 429 then .error .RATE_LIMIT
      else if code = 504 then .error .TIMEOUT
      else if 500 ≤ code then .error .SERVER_ERROR
      else .error .API_ERROR

/-- `callAI(message, retryCount)`: `outcome k` is what the `fetch` of the
attempt with `retryCount = k` does.  Returns the final result together with
the list of backoff delays (`1000 * (retryCount + 1)` ms) slept before each
retry; retries happen only while `retryCount < RETRY_ATTEMPTS` and only for
`SERVER_ERROR` / `API_ERROR`. -/
def callAI (outcome : Nat → FetchOutcome) (retryCount : Nat) :
    Except AIError String × List Nat :=
  match classify (outcome retryCount) with
  | .ok s => (.ok s, [])
  | .error e =>
      if h : retryCount < RETRY_ATTEMPTS ∧ (e = .SERVER_ERROR ∨ e = .API_ERROR) then
        let r := callAI outcome (retryCount + 1)
        (r.1, 1000 * (retryCount + 1) :: r.2)
      else (.error e, [])
termination_by RETRY_ATTEMPTS - retryCount
decreasing_by omega

/-! ## Concrete inputs used by the claim theorems -/

set_option maxRecDepth 8000

/-- A chat payload with valid `language`/`sessionId` and the given message. -/
def mkChatBody (m : String) : JVal :=
  .jobj [("message", .jstr m), ("language", .jstr "ja"), ("sessionId", .jstr "abc")]

/-- A 501-character message: 500 `'x'`s followed by one space (raw length
501, trimmed length 500). -/
def longMsg : String := String.mk (List.replicate 500 'x' ++ [' '])

/-- A history item with a valid role but empty `content`. -/
def badHistItem : JVal := .jobj [("role", .jstr "user"), ("content", .jstr "")]

/-- A well-formed history item. -/
def goodHistItem : JVal := .jobj [("role", .jstr "assistant"), ("content", .jstr "hi")]

/-- A six-entry history whose oldest entry has empty content. -/
def sixItemHistory : List JVal := badHistItem :: List.replicate 5 goodHistItem

/-- A chat payload, valid in all other respects, whose history is
`sixItemHistory`. -/
def sixHistoryBody : JVal :=
  .jobj [("message", .jstr "hello"), ("language", .jstr "ja"),
         ("sessionId", .jstr "abc"), ("history", .jarr sixItemHistory)]

/-- A contact payload that passes validation but carries a truthy non-string
`company`, which validation never inspects. -/
def numCompanyPayload : JVal :=
  .jobj [("name", .jstr " Bob "), ("email", .jstr "BOB@Example.com"),
         ("message", .jstr "hi therehi there"), ("company", .jnum 5)]

/-- The round-trip-sanitize contact payload, with an unrecognized `source`. -/
def bobPayload : JVal :=
  .jobj [("name", .jstr " Bob "), ("email", .jstr "BOB@Example.com"),
         ("message", .jstr "hi therehi there"), ("source", .jstr "unknown-tag")]

/-- A persisted client rate-limit history: one timestamp older than 24 hours
and eight within the last minute, as seen at `now = 90000000`. -/
def staleStored : List Int := 0 :: (List.range 8).map (fun i => (89999999 : Int) - i)

/-- Twenty timestamps within the last minute before `now = 1000000`: both the
1-minute tier (8/min) and the 10-minute tier (20/10min) deny. -/
def twentyRecent : List Int := (List.range 20).map (fun i => (999999 : Int) - i)

/-- Sixty conversation turns. -/
def sixtyTurns : List ChatTurn := List.replicate 60 ⟨"m", true⟩

/-- The optional-field shapes (`company`/`phone`/`service`) on which the
contact sanitizer cannot throw: strings, and falsy values (`?:` skips them). -/
def optionalFieldOk (v : JVal) : Prop := (∃ s, v = .jstr s) ∨ jsTruthy v = false

/-! ## Helper lemmas about the rate-limit stores -/

theorem storeLookup_storeSet_self (s : RLStore) (ip : String) (e : RLEntry) :
    storeLookup (storeSet s ip e) ip = some e := by
  induction s with
  | nil => simp [storeSet, storeLookup]
  | cons p rest ih =>
      obtain ⟨k, e0⟩ := p
      by_cases h : k = ip <;> simp [storeSet, storeLookup, h, ih]

theorem storeLookup_storeSet_ne (s : RLStore) (ip ip' : String) (e : RLEntry)
    (h : ip' ≠ ip) : storeLookup (storeSet s ip e) ip' = storeLookup s ip' := by
  have h2 : ¬ ip = ip' := fun hh => h hh.symm
  induction s with
  | nil => simp [storeSet, storeLookup, h2]
  | cons p rest ih =>
      obtain ⟨k, e0⟩ := p
      by_cases hk : k = ip
      · subst hk
        simp [storeSet, storeLookup, h2, ih]
      · simp [storeSet, storeLookup, hk, ih]

theorem storeLookup_mem {s : RLStore} {ip : String} {d : RLEntry}
    (h : storeLookup s ip = some d) : (ip, d) ∈ s := by
  induction s with
  | nil => simp [storeLookup] at h
  | cons p rest ih =>
      obtain ⟨k, e0⟩ := p
      by_cases hk : k = ip
      · subst hk
        simp [storeLookup] at h
        simp [h]
      · simp [storeLookup, hk] at h
        exact List.mem_cons_of_mem _ (ih h)

theorem cleanup_entry_not_old {now : Int} {store : RLStore} {ip : String}
    {d : RLEntry} (h : storeLookup (cleanupRateLimitStore now store) ip = some d) :
    ¬ d.timestamp < now - 60000 := by
  have hmem := storeLookup_mem h
  have := (List.mem_filter.mp hmem).2
  simpa using this

theorem cleanup_none_of_all_old {now : Int} {store : RLStore} {ip : String}
    (h : ∀ d : RLEntry, (ip, d) ∈ store → d.timestamp < now - 60000) :
    storeLookup (cleanupRateLimitStore now store) ip = none := by
  cases hl : storeLookup (cleanupRateLimitStore now store) ip with
  | none => rfl
  | some d =>
      exact absurd (h d (List.mem_filter.mp (storeLookup_mem hl)).1)
        (cleanup_entry_not_old hl)

/-- One-step characterization of `chatCheckRateLimit`: after the purge, the
in-function reset branch (`data.timestamp < now - 60000`) can never fire,
because `cleanupRateLimitStore` has already deleted such entries. -/
theorem chat_step (now : Int) (ip : String) (store : RLStore) :
    chatCheckRateLimit now ip store =
      match storeLookup (cleanupRateLimitStore now store) ip with
      | none => (true, storeSet (cleanupRateLimitStore now store) ip ⟨1, now⟩)
      | some d =>
          if RATE_LIMIT_PER_MINUTE ≤ d.count then
            (false, cleanupRateLimitStore now store)
          else
            (true, storeSet (cleanupRateLimitStore now store) ip ⟨d.count + 1, now⟩) := by
  unfold chatCheckRateLimit
  dsimp only
  cases hl : storeLookup (cleanupRateLimitStore now store) ip with
  | none => rfl
  | some d =>
      have hor := cleanup_entry_not_old hl
      simp [hor, ge_iff_le]

theorem chat_deny_iff (now : Int) (ip : String) (store : RLStore) :
    (chatCheckRateLimit now ip store).1 = false ↔
      ∃ d, storeLookup (cleanupRateLimitStore now store) ip = some d ∧
        RATE_LIMIT_PER_MINUTE ≤ d.count := by
  rw [chat_step]
  cases hl : storeLookup (cleanupRateLimitStore now store) ip with
  | none => simp
  | some d =>
      by_cases hc : RATE_LIMIT_PER_MINUTE ≤ d.count <;> simp [hc]

theorem chat_admit_store (now : Int) (ip : String) (store : RLStore)
    (h : (chatCheckRateLimit now ip store).1 = true) :
    (chatCheckRateLimit now ip store).2 =
      storeSet (cleanupRateLimitStore now store) ip
        ⟨(match storeLookup (cleanupRateLimitStore now store) ip with
          | some d => d.count + 1
          | none => 1), now⟩ := by
  rw [chat_step] at h ⊢
  cases hl : storeLookup (cleanupRateLimitStore now store) ip with
  | none => simp [hl]
  | some d =>
      rw [hl] at h
      by_cases hc : RATE_LIMIT_PER_MINUTE ≤ d.count
      · simp [hc] at h
      · simp [hl, hc]

theorem chat_deny_store (now : Int) (ip : String) (store : RLStore)
    (h : (chatCheckRateLimit now ip store).1 = false) :
    (chatCheckRateLimit now ip store).2 = cleanupRateLimitStore now store := by
  rw [chat_step] at h ⊢
  cases hl : storeLookup (cleanupRateLimitStore now store) ip with
  | none => rw [hl] at h; simp at h
  | some d =>
      rw [hl] at h
      by_cases hc : RATE_LIMIT_PER_MINUTE ≤ d.count
      · simp [hl, hc]
      · simp [hc] at h

/-- C3, counterexample: at `now = 60000` with entry `{count:10, timestamp:0}`,
a full minute (`now - windowStart >= 60000`) has elapsed since the entry was
created, yet the request is denied and the entry is not reset — the claimed
`>=`-reset of the fixed-window algorithm does not happen. -/
theorem c3_counterexample :
    ((60000 : Int) - 0 ≥ 60000) ∧
    (chatCheckRateLimit 60000 "a" [("a", ⟨10, 0⟩)]).1 = false ∧
    (chatCheckRateLimit 60000 "a" [("a", ⟨10, 0⟩)]).2 = [("a", ⟨10, 0⟩)] := by
  decide

/-- C3, amended: the purge deletes entries strictly older than one minute, so
a surviving entry always has `now - timestamp <= 60000` and the in-source
reset branch is dead; a request is denied exactly when the purged store still
holds an entry at `count >= max` (store left as purged); an admitted request
stores `{count: old+1 (1 if absent), timestamp: now}` — the timestamp advances
to `now` on every admitted request instead of staying at the window start; and
once strictly more than a minute has passed since the identity's last stored
timestamp, the next request is admitted with the counter reset to 1. -/
theorem c3_amended_sliding_reset (now : Int) (ip : String) (store : RLStore) :
    ((chatCheckRateLimit now ip store).1 = false ↔
       ∃ d, storeLookup (cleanupRateLimitStore now store) ip = some d ∧
         RATE_LIMIT_PER_MINUTE ≤ d.count)
    ∧ (∀ d, storeLookup (cleanupRateLimitStore now store) ip = some d →
        now - d.timestamp ≤ 60000)
    ∧ ((chatCheckRateLimit now ip store).1 = true →
        storeLookup (chatCheckRateLimit now ip store).2 ip =
          some ⟨(match storeLookup (cleanupRateLimitStore now store) ip with
                 | some d => d.count + 1
                 | none => 1), now⟩)
    ∧ ((chatCheckRateLimit now ip store).1 = false →
        (chatCheckRateLimit now ip store).2 = cleanupRateLimitStore now store)
    ∧ ((∀ d : RLEntry, (ip, d) ∈ store → d.timestamp < now - 60000) →
        (chatCheckRateLimit now ip store).1 = true ∧
        storeLookup (chatCheckRateLimit now ip store).2 ip = some ⟨1, now⟩) := by
  refine ⟨chat_deny_iff now ip store, ?_, ?_, chat_deny_store now ip store, ?_⟩
  · intro d hd
    have := cleanup_entry_not_old hd
    omega
  · intro h
    rw [chat_admit_store now ip store h, storeLookup_storeSet_self]
  · intro h
    have hn := cleanup_none_of_all_old h
    rw [chat_step, hn]
    simp [storeLookup_storeSet_self]

/-- C3 witness: an identity whose only entry is 70 seconds old is admitted
with a fresh `{count:1, timestamp:now}` entry. -/
theorem c3_witness :
    (chatCheckRateLimit 0 "a" [("a", ⟨10, -70000⟩)]).1 = true ∧
    storeLookup (chatCheckRateLimit 0 "a" [("a", ⟨10, -70000⟩)]).2 "a" =
      some ⟨1, 0⟩ :=
  (c3_amended_sliding_reset 0 "a" [("a", ⟨10, -70000⟩)]).2.2.2.2
    (by intro d hd; simp at hd; rw [hd]; decide)

/-- C10: in the chatbot proxy, a POST from a caller not at the limit
increments (or creates at 1) that caller's stored count with
`timestamp = now`, and this happens whatever the body is — before it is
parsed or validated — so a request that ends in 400 (malformed JSON or a
validation failure) still consumes one unit of the caller's per-minute
budget; entries of other identities are unchanged except for the lazy purge
of entries older than one minute. -/
theorem c10_rate_limit_consumed_before_parse (now : Int) (ip : String)
    (parsedBody : Option JVal) (store : RLStore)
    (h : (chatCheckRateLimit now ip store).1 = true) :
    (chatHandler now "POST" ip parsedBody store).2 =
      (chatCheckRateLimit now ip store).2
    ∧ storeLookup (chatHandler now "POST" ip parsedBody store).2 ip =
        some ⟨(match storeLookup (cleanupRateLimitStore now store) ip with
               | some d => d.count + 1
               | none => 1), now⟩
    ∧ (∀ ip', ip' ≠ ip →
        storeLookup (chatHandler now "POST" ip parsedBody store).2 ip' =
          storeLookup (cleanupRateLimitStore now store) ip')
    ∧ (parsedBody = none →
        (chatHandler now "POST" ip parsedBody store).1 = .invalidJson)
    ∧ (∀ body e, parsedBody = some body → validateInput body = .invalid e →
        (chatHandler now "POST" ip parsedBody store).1 = .validationError e) := by
  have hsnd : (chatHandler now "POST" ip parsedBody store).2 =
      (chatCheckRateLimit now ip store).2 := by
    unfold chatHandler
    dsimp only
    rw [if_neg (by decide), if_neg (by simp)]
    rw [h]
    cases parsedBody with
    | none => rfl
    | some body => cases hv : validateInput body <;> simp [hv]
  refine ⟨hsnd, ?_, ?_, ?_, ?_⟩
  · rw [hsnd, chat_admit_store now ip store h, storeLookup_storeSet_self]
  · intro ip' hip
    rw [hsnd, chat_admit_store now ip store h, storeLookup_storeSet_ne _ _ _ _ hip]
  · intro hpb
    subst hpb
    unfold chatHandler
    dsimp only
    rw [if_neg (by decide), if_neg (by simp)]
    rw [h]
    rfl
  · intro body e hpb hv
    subst hpb
    unfold chatHandler
    dsimp only
    rw [if_neg (by decide), if_neg (by simp)]
    rw [h, hv]
    rfl

/-- C10 witness: an unknown caller sending a malformed-JSON POST to a fresh
store gets 400 `invalid_json`, yet an entry `{count:1, timestamp:now}` was
recorded for it. -/
theorem c10_witness :
    (chatHandler 0 "POST" "a" none []).1 = ChatResp.invalidJson ∧
    storeLookup (chatHandler 0 "POST" "a" none []).2 "a" = some ⟨1, 0⟩ :=
  ⟨(c10_rate_limit_consumed_before_parse 0 "a" none [] (by decide)).2.2.2.1 rfl,
   by
    have := (c10_rate_limit_consumed_before_parse 0 "a" none [] (by decide)).2.1
    simpa using this⟩

/-- C1, counterexample: a caller already at the chat proxy's limit
(entry `{count:10, timestamp:now}`) who sends a POST with a body that is not
valid JSON receives 429 `rate_limit_exceeded`, not 400 `invalid_json` — the
rate-limit check runs before the body is parsed or validated. -/
theorem c1_counterexample :
    (chatCheckRateLimit 0 "1.2.3.4" [("1.2.3.4", ⟨10, 0⟩)]).1 = false ∧
    (chatHandler 0 "POST" "1.2.3.4" none [("1.2.3.4", ⟨10, 0⟩)]).1 =
      ChatResp.rateLimited ∧
    (chatHandler 0 "POST" "1.2.3.4" none [("1.2.3.4", ⟨10, 0⟩)]).1 ≠
      ChatResp.invalidJson := by
  decide

/-- C1, amended: in both proxies the per-IP rate-limit check precedes body
parsing and validation.  For a caller *not* at the limit, a POST whose body
is not valid JSON yields 400 `invalid_json` from the chat proxy, and a
non-null JSON payload that fails validation yields 400 `Validation failed`
from the contact proxy; a caller already at the limit receives 429 from
either proxy regardless of the body. -/
theorem c1_amended_rate_limit_first :
    (∀ (now : Int) (ip : String) (store : RLStore),
       (chatCheckRateLimit now ip store).1 = true →
       (chatHandler now "POST" ip none store).1 = ChatResp.invalidJson)
    ∧ (∀ (now : Int) (ip : String) (store : RLStore) (pb : Option JVal),
        (chatCheckRateLimit now ip store).1 = false →
        (chatHandler now "POST" ip pb store).1 = ChatResp.rateLimited)
    ∧ (∀ (now : Int) (ip : String) (store : ContactStore) (data : JVal)
        (cfg : Bool),
        (contactCheckRateLimit now ip store).1.allowed = true →
        data ≠ JVal.jnull →
        contactValidationErrors data ≠ [] →
        (contactHandler now "POST" ip (some data) cfg store).1 =
          ContactResp.validationFailed (contactValidationErrors data))
    ∧ (∀ (now : Int) (ip : String) (store : ContactStore) (pb : Option JVal)
        (cfg : Bool),
        (contactCheckRateLimit now ip store).1.allowed = false →
        (contactHandler now "POST" ip pb cfg store).1 =
          ContactResp.rateLimited (contactCheckRateLimit now ip store).1.retryAfter) := by
  refine ⟨?_, ?_, ?_, ?_⟩
  · intro now ip store h
    unfold chatHandler
    dsimp only
    rw [if_neg (by decide), if_neg (by simp), h]
    rfl
  · intro now ip store pb h
    unfold chatHandler
    dsimp only
    rw [if_neg (by decide), if_neg (by simp), h]
    rfl
  · intro now ip store data cfg h _ herr
    unfold contactHandler
    dsimp only
    rw [if_neg (by decide), if_neg (by simp), h]
    have hv : validateAndSanitize data =
        Except.ok (ContactValResult.invalid (contactValidationErrors data)) := by
      unfold validateAndSanitize
      rw [if_pos herr]
    simp [hv]
  · intro now ip store pb cfg h
    unfold contactHandler
    dsimp only
    rw [if_neg (by decide), if_neg (by simp), h]
    rfl

/-- C1 witness: a fresh caller's malformed-JSON POST gets 400 from the chat
proxy; a fresh caller's empty-object payload gets 400 `Validation failed`
from the contact proxy; a contact caller with ten requests in the last hour
gets 429 even though its body is malformed JSON. -/
theorem c1_witness :
    (chatHandler 0 "POST" "a" none []).1 = ChatResp.invalidJson ∧
    (contactHandler 0 "POST" "a" (some (JVal.jobj [])) true []).1 =
      ContactResp.validationFailed (contactValidationErrors (JVal.jobj [])) ∧
    (contactHandler 0 "POST" "b" none true [("b", [0,1,2,3,4,5,6,7,8,9])]).1 =
      ContactResp.rateLimited
        (contactCheckRateLimit 0 "b" [("b", [0,1,2,3,4,5,6,7,8,9])]).1.retryAfter :=
  ⟨c1_amended_rate_limit_first.1 0 "a" [] (by decide),
   c1_amended_rate_limit_first.2.2.1 0 "a" [] (JVal.jobj []) true (by decide)
     (fun hx => nomatch hx) (by decide),
   c1_amended_rate_limit_first.2.2.2 0 "b" [("b", [0,1,2,3,4,5,6,7,8,9])] none true
     (by decide)⟩

/-- The number of retries `callAI` performs from attempt `rc` onward is at
most `RETRY_ATTEMPTS - rc`. -/
theorem callAI_backoff_le (outcome : Nat → FetchOutcome) :
    ∀ (n rc : Nat), RETRY_ATTEMPTS - rc ≤ n →
      (callAI outcome rc).2.length ≤ RETRY_ATTEMPTS - rc := by
  intro n
  induction n with
  | zero =>
      intro rc h
      rw [callAI.eq_def]
      cases classify (outcome rc) with
      | ok s => simp
      | error e =>
          dsimp only
          rw [dif_neg (by omega)]
          simp
  | succ n ih =>
      intro rc h
      rw [callAI.eq_def]
      cases classify (outcome rc) with
      | ok s => simp
      | error e =>
          by_cases hg : rc < RETRY_ATTEMPTS ∧ (e = .SERVER_ERROR ∨ e = .API_ERROR)
          · dsimp only
            rw [dif_pos hg]
            have := ih (rc + 1) (by omega)
            simp only [List.length_cons]
            omega
          · dsimp only
            rw [dif_neg hg]
            simp

/-- C2: against three consecutive upstream 500s, `callAI` makes exactly 3
attempts (1 initial + 2 retries), sleeping `1000*1` then `1000*2` ms before
the retries, and surfaces `SERVER_ERROR`; every run performs at most
`RETRY_ATTEMPTS = 2` retries; and a first attempt classified `TIMEOUT`
(abort or HTTP 504 — 504 is matched before the `>= 500` branch), `RATE_LIMIT`
(429) or `NETWORK_ERROR` is never retried. -/
theorem c2_retry_bound :
    (callAI (fun _ => .status 500 none) 0 =
      (.error .SERVER_ERROR, [1000 * 1, 1000 * 2]))
    ∧ (∀ outcome : Nat → FetchOutcome,
        (callAI outcome 0).2.length ≤ RETRY_ATTEMPTS)
    ∧ (∀ (outcome : Nat → FetchOutcome) (e : AIError),
        classify (outcome 0) = .error e →
        e = .TIMEOUT ∨ e = .RATE_LIMIT ∨ e = .NETWORK_ERROR →
        callAI outcome 0 = (.error e, [])) := by
  refine ⟨?_, ?_, ?_⟩
  · rw [callAI.eq_def]
    norm_num [classify]
    rw [callAI.eq_def]
    norm_num [classify]
    rw [callAI.eq_def]
    norm_num [classify, RETRY_ATTEMPTS]
  · intro outcome
    have := callAI_backoff_le outcome RETRY_ATTEMPTS 0 (by omega)
    simpa using this
  · intro outcome e hc he
    rw [callAI.eq_def, hc]
    dsimp only
    rw [dif_neg ?_]
    rcases he with h | h | h <;> subst h <;> simp

/-- C2 witness: a 429 first response fails fast with `RATE_LIMIT` and no
retries. -/
theorem c2_witness :
    callAI (fun _ => .status 429 none) 0 = (.error .RATE_LIMIT, []) :=
  c2_retry_bound.2.2 (fun _ => .status 429 none) .RATE_LIMIT (by norm_num [classify])
    (Or.inr (Or.inl rfl))

/-- C5, counterexample: with a persisted history holding one timestamp older
than 24 hours plus eight within the last minute, the check denies (1-minute
tier) and returns *without* writing to `localStorage`: the persisted sequence
still contains the >24h-old timestamp `0`. -/
theorem c5_counterexample :
    (clientCheckRateLimit 90000000 staleStored).1.allowed = false ∧
    (clientCheckRateLimit 90000000 staleStored).2 = staleStored ∧
    (0 : Int) ∈ (clientCheckRateLimit 90000000 staleStored).2 ∧
    ¬((90000000 : Int) - 0 < PER_DAY.window) := by
  decide

/-- C5, amended: pruning to the 24-hour window happens on the in-memory copy;
the pruned copy (plus `now`) is persisted only when the check admits.  After
an allowed call no persisted timestamp is older than 24 hours; after a denied
call the persisted sequence is exactly what it was before the call (so stale
entries can survive a denial). -/
theorem c5_amended_prune_only_on_allowed (now : Int) (stored : List Int) :
    ((clientCheckRateLimit now stored).1.allowed = true →
       ∀ t ∈ (clientCheckRateLimit now stored).2, now - t < PER_DAY.window)
    ∧ ((clientCheckRateLimit now stored).1.allowed = false →
       (clientCheckRateLimit now stored).2 = stored) := by
  unfold clientCheckRateLimit
  dsimp only
  cases hr : runTierChecks now (stored.filter (fun x => decide (now - x < PER_DAY.window)))
      [PER_MINUTE, PER_10_MINUTES, PER_DAY] with
  | some p =>
      obtain ⟨reason, retryAfter⟩ := p
      refine ⟨?_, ?_⟩
      · intro h
        simp at h
      · intro _
        rfl
  | none =>
      refine ⟨?_, ?_⟩
      · intro _ t ht
        rcases List.mem_append.mp ht with hmem | hnow
        · have := (List.mem_filter.mp hmem).2
          simpa using this
        · have : t = now := by simpa using hnow
          subst this
          simp [PER_DAY]
      · intro h
        simp at h

/-- C5 witness: an allowed call from an empty history leaves only in-window
timestamps persisted. -/
theorem c5_witness :
    (clientCheckRateLimit 0 []).1.allowed = true ∧
    ∀ t ∈ (clientCheckRateLimit 0 []).2, (0 : Int) - t < PER_DAY.window :=
  ⟨by decide, (c5_amended_prune_only_on_allowed 0 []).1 (by decide)⟩

/-- C6: the wire slice `getHistoryForAPI` is exactly the most-recent-5 suffix
of the turn sequence in original order, with `isUser` mapped to
`"user"`/`"assistant"` by `turnToWire`; the persisted copy
`storeConversation` is exactly the most-recent-50 suffix; after 60 turns the
wire slice is exactly the last 5. -/
theorem c6_history_truncation (h : List ChatTurn) :
    (∃ pre suf, h = pre ++ suf ∧ suf.length = min MAX_HISTORY_LENGTH h.length ∧
       getHistoryForAPI h = suf.map turnToWire)
    ∧ (∃ pre, h = pre ++ storeConversation h ∧
        (storeConversation h).length = min 50 h.length)
    ∧ (h.length = 60 → getHistoryForAPI h = (h.drop 55).map turnToWire) := by
  refine ⟨⟨h.take (h.length - MAX_HISTORY_LENGTH), jsSliceLast h MAX_HISTORY_LENGTH,
      ?_, ?_, rfl⟩, ⟨h.take (h.length - 50), ?_, ?_⟩, ?_⟩
  · exact (List.take_append_drop _ h).symm
  · simp only [jsSliceLast, List.length_drop]
    omega
  · exact (List.take_append_drop _ h).symm
  · simp only [storeConversation, jsSliceLast, List.length_drop]
    omega
  · intro hl
    simp [getHistoryForAPI, jsSliceLast, hl, MAX_HISTORY_LENGTH]

/-- C6 witness: with 60 turns, the wire slice is the image of `drop 55`. -/
theorem c6_witness :
    getHistoryForAPI sixtyTurns = (sixtyTurns.drop 55).map turnToWire :=
  (c6_history_truncation sixtyTurns).2.2 (by decide)

/-- C7: when the 1-minute tier (8/min) and the 10-minute tier (20/10min)
would both deny, the denial carries the 1-minute tier's localized (Japanese)
message — tiers are checked strictest-window-first — and
`retryAfter = ceil((oldest-in-tier + window - now) / 1000)` computed over the
1-minute tier's entries; the persisted list is untouched. -/
theorem c7_tier_precedence (now : Int) (stored : List Int)
    (h1 : PER_MINUTE.max ≤
      ((stored.filter (fun t => now - t < PER_DAY.window)).filter
        (fun t => now - t < PER_MINUTE.window)).length)
    (h10 : PER_10_MINUTES.max ≤
      ((stored.filter (fun t => now - t < PER_DAY.window)).filter
        (fun t => now - t < PER_10_MINUTES.window)).length) :
    clientCheckRateLimit now stored =
      (⟨false, some PER_MINUTE.msgJa,
        some (jsCeilDiv
          (listMin ((stored.filter (fun t => now - t < PER_DAY.window)).filter
              (fun t => now - t < PER_MINUTE.window)) + PER_MINUTE.window - now)
          1000)⟩,
       stored) := by
  unfold clientCheckRateLimit
  dsimp only
  rw [runTierChecks]
  rw [if_pos h1]
  simp [tierMessage, getCurrentLanguage]

/-- C7 witness: twenty messages in the last minute trip both tiers; the
denial shows the 1-minute message and `retryAfter = 60`. -/
theorem c7_witness :
    clientCheckRateLimit 1000000 twentyRecent =
      (⟨false, some PER_MINUTE.msgJa, some 60⟩, twentyRecent) := by
  rw [c7_tier_precedence 1000000 twentyRecent (by decide) (by decide)]
  decide

/-- C4, counterexample: a message of 500 `'x'`s plus one trailing space has
trimmed length 500 — inside the claimed accepted range 1..500 — yet
`validateInput` rejects it for length: the length cap is applied to the raw
(untrimmed) string. -/
theorem c4_counterexample :
    validateInput (mkChatBody longMsg) =
      .invalid "Message too long (max 500 characters)" ∧
    (jsTrim longMsg).length = 500 ∧
    1 ≤ (jsTrim longMsg).length ∧ (jsTrim longMsg).length ≤ MAX_MESSAGE_LENGTH := by
  decide

/-- C4, amended: given valid `language` and `sessionId` and absent history,
`validateInput` rejects on the message field exactly when `message` is not a
nonempty string, its *raw* (untrimmed) length exceeds 500, or its trimmed
length is 0; equivalently, it passes iff `message` is a string with raw
length ≤ 500 and a nonempty trim.  An empty message yields the
message-mentioning required-field error (a 400 `validation_error` from the
handler for a caller not at the limit), and a 501-character message yields
the length error. -/
theorem c4_amended_raw_length (fs : List (String × JVal))
    (hl : (isJStr (getField (.jobj fs) "language") "ja" ||
           isJStr (getField (.jobj fs) "language") "en") = true)
    (hs : ∃ sid, getField (.jobj fs) "sessionId" = some (.jstr sid) ∧ sid ≠ "")
    (hh : getField (.jobj fs) "history" = none) :
    ((∃ d, validateInput (.jobj fs) = .ok d) ↔
      (∃ m, getField (.jobj fs) "message" = some (.jstr m) ∧
        m.length ≤ MAX_MESSAGE_LENGTH ∧ (jsTrim m).length ≠ 0))
    ∧ validateInput (mkChatBody "") =
        .invalid "Message is required and must be a string"
    ∧ validateInput (mkChatBody (String.mk (List.replicate 501 'x'))) =
        .invalid "Message too long (max 500 characters)"
    ∧ (∀ (now : Int) (ip : String) (store : RLStore),
        (chatCheckRateLimit now ip store).1 = true →
        (chatHandler now "POST" ip (some (mkChatBody "")) store).1 =
          ChatResp.validationError "Message is required and must be a string") := by
  obtain ⟨sid, hsid, hsne⟩ := hs
  refine ⟨?_, by decide, by decide, ?_⟩
  case refine_2 =>
    intro now ip store hrl
    unfold chatHandler
    dsimp only
    rw [if_neg (by decide), if_neg (by simp), hrl,
      show validateInput (mkChatBody "") =
        ValResult.invalid "Message is required and must be a string" by decide]
    rfl
  cases hm : getField (.jobj fs) "message" with
  | none => simp [validateInput, jsTruthy, jsTypeofObject, hm]
  | some v =>
      cases v with
      | jstr m =>
          by_cases hme : m = ""
          · subst hme
            simp [validateInput, jsTruthy, jsTypeofObject, hm]
            decide
          · by_cases hlen : m.length > MAX_MESSAGE_LENGTH
            · simp [validateInput, jsTruthy, jsTypeofObject, hm, hme, hl, hsid, hsne, hlen]
            · by_cases htr : (jsTrim m).length = 0
              · simp [validateInput, jsTruthy, jsTypeofObject, hm, hme, hl, hsid, hsne, hlen, htr]
              · simp [validateInput, jsTruthy, jsTypeofObject, hm, hme, hl, hsid, hsne, hlen, htr, hh]
                omega
      | jnull => simp [validateInput, jsTruthy, jsTypeofObject, hm]
      | jbool b => simp [validateInput, jsTruthy, jsTypeofObject, hm]
      | jnum n => simp [validateInput, jsTruthy, jsTypeofObject, hm]
      | jarr xs => simp [validateInput, jsTruthy, jsTypeofObject, hm]
      | jobj gs => simp [validateInput, jsTruthy, jsTypeofObject, hm]

/-- C4 witness: a plain short message passes validation. -/
theorem c4_witness :
    ∃ d, validateInput (mkChatBody "hello") = ValResult.ok d :=
  (c4_amended_raw_length
      [("message", .jstr "hello"), ("language", .jstr "ja"), ("sessionId", .jstr "abc")]
      (by decide) ⟨"abc", rfl, by decide⟩ rfl).1.mpr
    ⟨"hello", rfl, by decide, by decide⟩

/-- `isJStr v s` pins `v` down to the string value `s`. -/
theorem isJStr_eq {v : Option JVal} {s : String} (h : isJStr v s = true) :
    v = some (.jstr s) := by
  cases v with
  | none => simp [isJStr] at h
  | some x =>
      cases x <;> simp [isJStr] at h
      rw [h]

/-- The history loop rejects (with the format error) any list whose entries
all have valid roles and string contents once one content is `""`. -/
theorem validateHistory_empty_content {l : List JVal}
    (hgood : ∀ item ∈ l,
      (isJStr (getField item "role") "user" ||
       isJStr (getField item "role") "assistant") = true ∧
      ∃ c, getField item "content" = some (.jstr c))
    (hbad : ∃ item ∈ l, getField item "content" = some (.jstr "")) :
    validateHistory l = some "Invalid history format" := by
  induction l with
  | nil => simp at hbad
  | cons item rest ih =>
      obtain ⟨hrole, c, hc⟩ := hgood item (List.mem_cons_self _ _)
      by_cases hcc : c = ""
      · subst hcc
        have hok : historyItemOk item = false := by
          simp [historyItemOk, hc, optTruthy, jsTruthy]
        simp [validateHistory, hok]
      · have hru : getField item "role" = some (.jstr "user") ∨
            getField item "role" = some (.jstr "assistant") := by
          rcases (Bool.or_eq_true _ _).mp hrole with h | h
          · exact Or.inl (isJStr_eq h)
          · exact Or.inr (isJStr_eq h)
        have hok : historyItemOk item = true := by
          rcases hru with h | h <;>
            simp [historyItemOk, h, hc, optTruthy, optIsString, jsTruthy, hcc]
        have hrest : validateHistory rest = some "Invalid history format" := by
          refine ih (fun it hit => hgood it (List.mem_cons_of_mem _ hit)) ?_
          obtain ⟨bad, hbmem, hbc⟩ := hbad
          rcases List.mem_cons.mp hbmem with hbe | hbm
          · subst hbe
            exact absurd (JVal.jstr.inj (Option.some.inj (hc.symm.trans hbc))) hcc
          · exact ⟨bad, hbm, hbc⟩
        simp [validateHistory, hok, hrole, hrest]

/-- C9, counterexample: a payload valid in all other respects whose history
*contains* an entry with role `"user"` and empty-string content is accepted
when that entry sits before the last `MAX_HISTORY_LENGTH = 5` entries — the
slice-then-validate order drops it unexamined, contradicting the claim that
any such payload is rejected. -/
theorem c9_counterexample :
    (∃ d, validateInput sixHistoryBody = ValResult.ok d) ∧
    getField badHistItem "content" = some (.jstr "") ∧
    isJStr (getField badHistItem "role") "user" = true ∧
    getField sixHistoryBody "history" = some (.jarr sixItemHistory) ∧
    badHistItem ∈ sixItemHistory :=
  ⟨⟨_, rfl⟩, rfl, rfl, rfl, List.mem_cons_self _ _⟩

/-- C9, amended: for a payload valid in all other respects, an entry with a
valid role and empty-string `content` *within the last-5 slice* of the
history makes `validateInput` return `Invalid history format` (so the
handler responds 400 `validation_error`), even though the wire shape only
requires `content` to be a string; entries before the last 5 are dropped
before validation. -/
theorem c9_amended_last_five (fs : List (String × JVal)) (items : List JVal)
    (hm : ∃ m, getField (.jobj fs) "message" = some (.jstr m) ∧
       m ≠ "" ∧ ¬ m.length > MAX_MESSAGE_LENGTH ∧ (jsTrim m).length ≠ 0)
    (hl : (isJStr (getField (.jobj fs) "language") "ja" ||
           isJStr (getField (.jobj fs) "language") "en") = true)
    (hs : ∃ sid, getField (.jobj fs) "sessionId" = some (.jstr sid) ∧ sid ≠ "")
    (hh : getField (.jobj fs) "history" = some (.jarr items))
    (hgood : ∀ item ∈ items.drop (items.length - MAX_HISTORY_LENGTH),
      (isJStr (getField item "role") "user" ||
       isJStr (getField item "role") "assistant") = true ∧
      ∃ c, getField item "content" = some (.jstr c))
    (hbad : ∃ item ∈ items.drop (items.length - MAX_HISTORY_LENGTH),
      getField item "content" = some (.jstr "")) :
    validateInput (.jobj fs) = .invalid "Invalid history format"
    ∧ (∀ (now : Int) (ip : String) (store : RLStore),
        (chatCheckRateLimit now ip store).1 = true →
        (chatHandler now "POST" ip (some (.jobj fs)) store).1 =
          ChatResp.validationError "Invalid history format") := by
  obtain ⟨m, hmf, hme, hlen, htr⟩ := hm
  obtain ⟨sid, hsid, hsne⟩ := hs
  have hv := validateHistory_empty_content hgood hbad
  have hvi : validateInput (.jobj fs) = .invalid "Invalid history format" := by
    simp [validateInput, jsTruthy, jsTypeofObject, hmf, hme, hl, hsid, hsne,
      hlen, htr, hh, hv]
  refine ⟨hvi, ?_⟩
  intro now ip store hrl
  unfold chatHandler
  dsimp only
  rw [if_neg (by decide), if_neg (by simp), hrl, hvi]
  rfl

/-- C9 witness: a single-entry history whose entry has empty content is
rejected with the format error. -/
theorem c9_witness :
    validateInput (.jobj [("message", .jstr "hello"), ("language", .jstr "ja"),
      ("sessionId", .jstr "abc"), ("history", .jarr [badHistItem])]) =
      ValResult.invalid "Invalid history format" :=
  (c9_amended_last_five
    [("message", .jstr "hello"), ("language", .jstr "ja"),
     ("sessionId", .jstr "abc"), ("history", .jarr [badHistItem])]
    [badHistItem]
    ⟨"hello", rfl, by decide, by decide, by decide⟩
    (by decide) ⟨"abc", rfl, by decide⟩ rfl
    (by
      intro item hmem
      have : item = badHistItem := by
        simpa [MAX_HISTORY_LENGTH] using hmem
      subst this
      exact ⟨by decide, ⟨"", rfl⟩⟩)
    ⟨badHistItem, List.mem_singleton.mpr rfl, rfl⟩).1

/-- A field that passes the required-field test is a string. -/
theorem missingOrInvalid_false {v : JVal} (h : missingOrInvalid v = false) :
    ∃ s, v = .jstr s := by
  cases v <;> simp [missingOrInvalid] at h <;> exact ⟨_, rfl⟩

/-- The optional-field ternary cannot throw on a string or falsy value. -/
theorem optional_trim_ok {v : JVal} (h : optionalFieldOk v) (n : Nat) :
    ∃ s, optionalSanitize v n = Except.ok s := by
  rcases h with ⟨s, rfl⟩ | hf
  · by_cases ht : jsTruthy (.jstr s) <;>
      simp [optionalSanitize, ht, jsTrimString, Except.map]
  · simp [optionalSanitize, hf]

/-- C8, counterexample: a payload that passes validation (empty `errors`)
but carries `company: 5` — a truthy non-string that validation never
inspects — makes the sanitize step throw a `TypeError` (`5..trim()` is not a
function), so `validateAndSanitize` returns no sanitized record at all,
contradicting the claim's universal quantification over payloads that pass
validation. -/
theorem c8_counterexample :
    contactValidationErrors numCompanyPayload = [] ∧
    validateAndSanitize numCompanyPayload = .error () ∧
    ∀ r, validateAndSanitize numCompanyPayload ≠
      Except.ok (ContactValResult.ok r) := by
  refine ⟨rfl, rfl, ?_⟩
  intro r h
  rw [show validateAndSanitize numCompanyPayload = .error () from rfl] at h
  exact nomatch h

/-- C8, amended: for every contact payload that passes validation *and*
whose optional `company`/`phone`/`service` values are strings or falsy,
`validateAndSanitize` returns a record whose `name` is the trimmed name
capped at 100 chars, `email` the trimmed lowercased email capped at 200,
`message` the trimmed message capped at 2000, and `source` the supplied
value exactly when it is `website-contact-form` or `pdf-download` and
`"website-contact-form"` otherwise.  (A truthy non-string optional field
instead throws, and the handler maps the throw to a 500 response.) -/
theorem c8_amended_sanitize (data : JVal)
    (hv : contactValidationErrors data = [])
    (hc : optionalFieldOk (normalizeContact data).company)
    (hp : optionalFieldOk (normalizeContact data).phone)
    (hsv : optionalFieldOk (normalizeContact data).service) :
    ∃ ns es ms r,
      (normalizeContact data).name = .jstr ns ∧
      (normalizeContact data).email = .jstr es ∧
      (normalizeContact data).message = .jstr ms ∧
      validateAndSanitize data = .ok (.ok r) ∧
      r.name = jsTake (jsTrim ns) 100 ∧
      r.email = jsTake (jsToLower (jsTrim es)) 200 ∧
      r.message = jsTake (jsTrim ms) 2000 ∧
      r.source = contactSource data ∧
      (∀ s, getField data "source" = some (.jstr s) →
         (s = "website-contact-form" ∨ s = "pdf-download") → r.source = s) ∧
      (∀ s, getField data "source" = some (.jstr s) →
         s ≠ "website-contact-form" → s ≠ "pdf-download" →
         r.source = "website-contact-form") := by
  have hA : missingOrInvalid (normalizeContact data).name = false := by
    by_cases h : missingOrInvalid (normalizeContact data).name
    · rw [contactValidationErrors] at hv
      simp [h] at hv
    · simpa using h
  have hB : missingOrInvalid (normalizeContact data).email = false := by
    by_cases h : missingOrInvalid (normalizeContact data).email
    · rw [contactValidationErrors] at hv
      simp [h] at hv
    · simpa using h
  have hC : missingOrInvalid (normalizeContact data).message = false := by
    by_cases h : missingOrInvalid (normalizeContact data).message
    · rw [contactValidationErrors] at hv
      simp [h] at hv
    · simpa using h
  obtain ⟨ns, hns⟩ := missingOrInvalid_false hA
  obtain ⟨es, hes⟩ := missingOrInvalid_false hB
  obtain ⟨ms, hms⟩ := missingOrInvalid_false hC
  obtain ⟨cs, hcs⟩ := optional_trim_ok hc 200
  obtain ⟨ps, hps⟩ := optional_trim_ok hp 50
  obtain ⟨ss, hss⟩ := optional_trim_ok hsv 100
  have hval : validateAndSanitize data = Except.ok (ContactValResult.ok
      { name := jsTake (jsTrim ns) 100
        email := jsTake (jsToLower (jsTrim es)) 200
        company := cs
        phone := ps
        service := ss
        message := jsTake (jsTrim ms) 2000
        consent := jsConsent (normalizeContact data).consent
        language := (normalizeContact data).language
        source := contactSource data }) := by
    unfold validateAndSanitize
    rw [if_neg (by simp [hv])]
    rw [hns, hes, hms, hcs, hps, hss]
    rfl
  refine ⟨ns, es, ms, _, hns, hes, hms, hval, rfl, rfl, rfl, rfl, ?_, ?_⟩
  · intro s hsf hin
    rcases hin with h | h <;> simp [contactSource, hsf, h]
  · intro s hsf h1 h2
    simp [contactSource, hsf, h1, h2]

/-- C8 witness: `{name:" Bob ", email:"BOB@Example.com", message:"hi there"*2,
source:"unknown-tag"}` sanitizes to `Bob` / `bob@example.com` / the same
message, with `source` defaulted to `website-contact-form`. -/
theorem c8_witness :
    ∃ r, validateAndSanitize bobPayload = Except.ok (ContactValResult.ok r) ∧
      r.name = "Bob" ∧ r.email = "bob@example.com" ∧
      r.message = "hi therehi there" ∧ r.source = "website-contact-form" := by
  obtain ⟨ns, es, ms, r, hns, hes, hms, hval, hname, hemail, hmsg, hsrc, _, _⟩ :=
    c8_amended_sanitize bobPayload rfl (Or.inl ⟨"", rfl⟩) (Or.inl ⟨"", rfl⟩)
      (Or.inl ⟨"", rfl⟩)
  rw [show (normalizeContact bobPayload).name = JVal.jstr " Bob " from rfl] at hns
  rw [show (normalizeContact bobPayload).email = JVal.jstr "BOB@Example.com" from rfl] at hes
  rw [show (normalizeContact bobPayload).message = JVal.jstr "hi therehi there" from rfl] at hms
  injection hns with hns'
  injection hes with hes'
  injection hms with hms'
  subst hns' hes' hms'
  refine ⟨r, hval, ?_, ?_, ?_, ?_⟩
  · rw [hname]; decide
  · rw [hemail]; decide
  · rw [hmsg]; decide
  · rw [hsrc]; decide
